import Mathlib

/-!
Shallow embedding of the emergency-dispatch simulator
(`src/aioHttp3.py`, `src/aioHttp.py`, `src/fast_simulation.py`,
`src/vector_simulation.py`, `src/main.py`).

Python dicts are modelled as insertion-ordered association lists
(`List (String × _)`); Python's `dict.get`, `dict[k] = v`, `dict[k] -= v`
are modelled by `alookup`, `aset` and `decAt` below.  Integer counts are
`Int` (Python ints).  Coordinates are `ℚ`; the source ranks candidates by
`math.hypot dx dy = sqrt (dx^2 + dy^2)`, and since `sqrt` is strictly
monotone on nonnegative reals, ordering and ties by `hypot` coincide with
ordering and ties by the squared distance `dist2` used here (exact
arithmetic; float rounding is not modelled).
-/

/-- Per-service availability mapping: city → count
(the inner dicts of `availability_cache`, e.g. `aioHttp3.py` line 15). -/
abbrev AvailMap := List (String × Int)

/-- The availability cache: service type → (city → count)
(`availability_cache` in `aioHttp3.py` lines 15-21). -/
abbrev Cache := List (String × AvailMap)

/-- The location index: city → (latitude, longitude)
(`location_details` built by `get_location_details`; only the coordinates
are consumed by the allocator). -/
abbrev LocIndex := List (String × (ℚ × ℚ))

/-- Python `d.get(k)` on an insertion-ordered dict. -/
def alookup {β : Type} : List (String × β) → String → Option β
  | [], _ => none
  | (k0, v0) :: t, k => if k = k0 then some v0 else alookup t k

/-- Python `d[k] = v` on an insertion-ordered dict: overwrite in place if the key
is present, append otherwise (Python dict assignment). -/
def aset {β : Type} : List (String × β) → String → β → List (String × β)
  | [], k, v => [(k, v)]
  | (k0, v0) :: t, k, v => if k = k0 then (k, v) :: t else (k0, v0) :: aset t k v

/-- The read `availability_cache.get(service_type)` (`aioHttp3.py` line 172). -/
def svc (cache : Cache) (s : String) : AvailMap := (alookup cache s).getD []

/-- The live count `availability_cache.get(service_type).get(city, 0)`
(`aioHttp3.py` line 172), defaulting to 0. -/
def cnt (cache : Cache) (s c : String) : Int := (alookup (svc cache s) c).getD 0

/-- The write `availability_cache[service_type][city] = v` (`aioHttp3.py` line 175;
only reached when the service key is present, where `aset` coincides with
Python's in-place inner-dict assignment). -/
def setCnt (cache : Cache) (s c : String) (v : Int) : Cache :=
  aset cache s (aset (svc cache s) c v)

/-- The lock-held test-and-decrement of `aioHttp3.py` lines 170-175:
read the live count, and if positive take `min current remaining`,
writing back the difference.  Returns (amount taken, new cache). -/
def tryTake (cache : Cache) (s c : String) (r : Int) : Int × Cache :=
  let cur := cnt cache s c
  if 0 < cur then (min cur r, setCnt cache s c (cur - min cur r)) else (0, cache)

theorem alookup_aset_self {β : Type} (m : List (String × β)) (k : String) (v : β) :
    alookup (aset m k v) k = some v := by
  induction m with
  | nil => simp [aset, alookup]
  | cons e t ih =>
    obtain ⟨k0, v0⟩ := e
    by_cases h : k = k0 <;> simp [aset, alookup, h, ih]

theorem alookup_aset_ne {β : Type} (m : List (String × β)) (k k' : String) (v : β)
    (h : k' ≠ k) : alookup (aset m k v) k' = alookup m k' := by
  induction m with
  | nil => simp [aset, alookup, h]
  | cons e t ih =>
    obtain ⟨k0, v0⟩ := e
    by_cases h0 : k = k0
    · subst h0
      simp [aset, alookup, h]
    · by_cases h1 : k' = k0 <;> simp [aset, alookup, h0, h1, ih]

theorem svc_setCnt_self (cache : Cache) (s c : String) (v : Int) :
    svc (setCnt cache s c v) s = aset (svc cache s) c v := by
  simp [svc, setCnt, alookup_aset_self]

theorem cnt_setCnt_self (cache : Cache) (s c : String) (v : Int) :
    cnt (setCnt cache s c v) s c = v := by
  simp [cnt, svc_setCnt_self, alookup_aset_self]

theorem cnt_setCnt_ne (cache : Cache) (s c s' c' : String) (v : Int)
    (h : s' ≠ s ∨ c' ≠ c) : cnt (setCnt cache s c v) s' c' = cnt cache s' c' := by
  rcases h with h | h
  · simp [cnt, svc, setCnt, alookup_aset_ne _ _ _ _ h]
  · by_cases hs : s' = s
    · subst hs
      simp [cnt, svc_setCnt_self, alookup_aset_ne _ _ _ _ h]
    · simp [cnt, svc, setCnt, alookup_aset_ne _ _ _ _ hs]

theorem tryTake_cnt_sub (cache : Cache) (s c : String) (r : Int) :
    cnt (tryTake cache s c r).2 s c = cnt cache s c - (tryTake cache s c r).1 := by
  unfold tryTake
  by_cases h : 0 < cnt cache s c <;> simp [h, cnt_setCnt_self]

theorem tryTake_cnt_nonneg (cache : Cache) (s c : String) (r : Int)
    (h : 0 ≤ cnt cache s c) : 0 ≤ cnt (tryTake cache s c r).2 s c := by
  unfold tryTake
  by_cases h0 : 0 < cnt cache s c
  · simp only [h0, if_true, cnt_setCnt_self]
    have := min_le_left (cnt cache s c) r
    omega
  · simpa [h0] using h

/-- A sequence of `tryTake` calls against one (serviceType, city) pair:
returns the list of amounts taken and the final cache. -/
def takeSeq (cache : Cache) (s c : String) : List Int → List Int × Cache
  | [] => ([], cache)
  | r :: rs =>
    ((tryTake cache s c r).1 :: (takeSeq (tryTake cache s c r).2 s c rs).1,
      (takeSeq (tryTake cache s c r).2 s c rs).2)

theorem takeSeq_cnt_sub (s c : String) :
    ∀ (rs : List Int) (cache : Cache),
      cnt (takeSeq cache s c rs).2 s c = cnt cache s c - ((takeSeq cache s c rs).1).sum
  | [], cache => by simp [takeSeq]
  | r :: rs, cache => by
    simp only [takeSeq, List.sum_cons]
    rw [takeSeq_cnt_sub s c rs, tryTake_cnt_sub]
    ring

theorem takeSeq_cnt_nonneg (s c : String) :
    ∀ (rs : List Int) (cache : Cache), 0 ≤ cnt cache s c →
      0 ≤ cnt (takeSeq cache s c rs).2 s c
  | [], cache, h => by simpa [takeSeq] using h
  | r :: rs, cache, h => by
    simp only [takeSeq]
    exact takeSeq_cnt_nonneg s c rs _ (tryTake_cnt_nonneg cache s c r h)

/-- The decrement of `aioHttp.py` line 181:
`availability_cache[service_type][city] -= dispatch_count`, where
`dispatch_count = min(avail_count, remaining)` (line 165) was computed from
the count in the snapshot built earlier (lines 145-159), not from the live
count.  An unconditional subtraction, not a clamped take. -/
def httpDecrement (cache : Cache) (s c : String) (d : Int) : Cache :=
  setCnt cache s c (cnt cache s c - d)

/-- Claim C1 (amended): for the `aioHttp3.py` take primitive
(lock-held clamped test-and-decrement, lines 170-175), for any initial
count `C ≥ 0` of a (serviceType, city) pair and any sequence of take
operations on that pair with no intervening replace, the final count
equals `C` minus the sum of the amounts taken, is never negative (and
since the sequence is arbitrary this holds at every instant of the run),
and the sum of the amounts taken never exceeds `C`. -/
theorem C1_take_sequence (cache : Cache) (s c : String) (rs : List Int)
    (h : 0 ≤ cnt cache s c) :
    cnt (takeSeq cache s c rs).2 s c = cnt cache s c - ((takeSeq cache s c rs).1).sum
    ∧ 0 ≤ cnt (takeSeq cache s c rs).2 s c
    ∧ ((takeSeq cache s c rs).1).sum ≤ cnt cache s c := by
  have h1 := takeSeq_cnt_sub s c rs cache
  have h2 := takeSeq_cnt_nonneg s c rs cache h
  refine ⟨h1, h2, ?_⟩
  omega

theorem C1_take_sequence_witness :
    cnt (takeSeq [("Medical", [("X", 5)])] "Medical" "X" [3, 4]).2 "Medical" "X"
      = cnt [("Medical", [("X", 5)])] "Medical" "X"
        - ((takeSeq [("Medical", [("X", 5)])] "Medical" "X" [3, 4]).1).sum
    ∧ 0 ≤ cnt (takeSeq [("Medical", [("X", 5)])] "Medical" "X" [3, 4]).2 "Medical" "X"
    ∧ ((takeSeq [("Medical", [("X", 5)])] "Medical" "X" [3, 4]).1).sum
        ≤ cnt [("Medical", [("X", 5)])] "Medical" "X" :=
  C1_take_sequence [("Medical", [("X", 5)])] "Medical" "X" [3, 4] (by decide)

/-- Claim C1 is false of the repository as stated: in `aioHttp.py`, the
decrement (line 181) subtracts an amount computed from a snapshot taken
earlier (lines 145-159, 165), and `await dispatch(...)` (line 177) between
snapshot and decrement is a suspension point where another task runs.  The
schedule below is a real asyncio interleaving of two calls, each needing
units of "Medical" from city "X" whose live count is 5: both tasks
snapshot count 5, task 1 decrements by `min 5 5 = 5`, then task 2
decrements by `min 5 4 = 4`, driving the stored count to `-4` — applied as
negative, not clamped — and the two takes sum to `9 > 5`. -/
theorem C1_counterexample :
    cnt
      (httpDecrement
        (httpDecrement [("Medical", [("X", 5)])] "Medical" "X"
          (min ((alookup (svc [("Medical", [("X", 5)])] "Medical") "X").getD 0) 5))
        "Medical" "X"
        (min ((alookup (svc [("Medical", [("X", 5)])] "Medical") "X").getD 0) 4))
      "Medical" "X" = -4
    ∧ (min ((alookup (svc [("Medical", [("X", 5)])] "Medical") "X").getD 0) 5)
      + (min ((alookup (svc [("Medical", [("X", 5)])] "Medical") "X").getD 0) 4) = 9 := by
  decide

/-- Claim C2: the cache take primitive (`aioHttp3.py` lines 170-175), for a
nonnegative current count and a positive requested amount, returns exactly
`min currentCount requestedAmount`, leaves the pair's count at
`currentCount - min currentCount requestedAmount`, changes no other pair's
count, and for an unknown serviceType or unknown city returns 0 with the
cache left exactly unchanged (no error is possible: the function is total). -/
theorem C2_tryTake (cache : Cache) (s c : String) (r : Int) :
    (0 ≤ cnt cache s c → 0 < r →
      (tryTake cache s c r).1 = min (cnt cache s c) r
      ∧ cnt (tryTake cache s c r).2 s c = cnt cache s c - min (cnt cache s c) r
      ∧ ∀ s' c', s' ≠ s ∨ c' ≠ c → cnt (tryTake cache s c r).2 s' c' = cnt cache s' c')
    ∧ (alookup cache s = none → tryTake cache s c r = (0, cache))
    ∧ (alookup (svc cache s) c = none → tryTake cache s c r = (0, cache)) := by
  refine ⟨fun h0 hr => ?_, fun hs => ?_, fun hc => ?_⟩
  · by_cases h : 0 < cnt cache s c
    · refine ⟨by simp [tryTake, h], ?_, fun s' c' hne => ?_⟩
      · simp [tryTake, h, cnt_setCnt_self]
      · simp [tryTake, h, cnt_setCnt_ne _ _ _ _ _ _ hne]
    · have hz : cnt cache s c = 0 := le_antisymm (not_lt.mp h) h0
      simp [tryTake, h, hz, min_eq_left hr.le]
  · have : cnt cache s c = 0 := by simp [cnt, svc, hs, alookup]
    simp [tryTake, this]
  · have : cnt cache s c = 0 := by simp [cnt, hc]
    simp [tryTake, this]

theorem C2_tryTake_witness :
    ((tryTake [("Medical", [("X", 5)])] "Medical" "X" 3).1
        = min (cnt [("Medical", [("X", 5)])] "Medical" "X") 3
      ∧ cnt (tryTake [("Medical", [("X", 5)])] "Medical" "X" 3).2 "Medical" "X"
        = cnt [("Medical", [("X", 5)])] "Medical" "X"
          - min (cnt [("Medical", [("X", 5)])] "Medical" "X") 3
      ∧ ∀ s' c', s' ≠ "Medical" ∨ c' ≠ "X" →
          cnt (tryTake [("Medical", [("X", 5)])] "Medical" "X" 3).2 s' c'
            = cnt [("Medical", [("X", 5)])] s' c')
    ∧ (alookup ([("Medical", [("X", 5)])] : Cache) "Banana" = none →
        tryTake [("Medical", [("X", 5)])] "Banana" "X" 3 = (0, [("Medical", [("X", 5)])])) :=
  ⟨(C2_tryTake [("Medical", [("X", 5)])] "Medical" "X" 3).1 (by decide) (by decide),
    (C2_tryTake [("Medical", [("X", 5)])] "Banana" "X" 3).2.1⟩

/-- Squared straight-line distance between two coordinate pairs.  The
source (`euclidean_distance`, e.g. `fast_simulation.py` line 43) computes
`math.hypot`, the square root of this; since the square root is strictly
monotone, sorting and tie-detection by `hypot` coincide with sorting and
tie-detection by `dist2`. -/
def dist2 (p q : ℚ × ℚ) : ℚ :=
  (p.1 - q.1) * (p.1 - q.1) + (p.2 - q.2) * (p.2 - q.2)

/-- A ranked candidate: (city, squared distance to target, snapshot count). -/
abbrev Cand := String × ℚ × Int

/-- The candidate comprehension of `fast_simulation.py` lines 209-215 /
`vector_simulation.py` lines 102-106: walk the snapshot in its own order,
keep entries with `count > 0` whose city is in the location index, and pair
each with its distance to the target. -/
def candsOf (snap : AvailMap) (index : LocIndex) (t : ℚ × ℚ) : List Cand :=
  snap.filterMap fun e =>
    match alookup index e.1 with
    | some p => if (0 : Int) < e.2 then some (e.1, dist2 p t, e.2) else none
    | none => none

/-- The sort key: `candidates.sort(key=lambda c: c[1])` compares candidates by their
distance component. -/
def distLe (x y : Cand) : Prop := x.2.1 ≤ y.2.1

instance : DecidableRel distLe := fun x y => inferInstanceAs (Decidable (x.2.1 ≤ y.2.1))

instance : IsTotal Cand distLe := ⟨fun a b => le_total a.2.1 b.2.1⟩

instance : IsTrans Cand distLe := ⟨fun _ _ _ h1 h2 => le_trans h1 h2⟩

/-- The ranked candidate list, `candidates.sort(key=lambda c: c[1])`
(`fast_simulation.py` line 216 /
`vector_simulation.py` line 107).  Python's sort is stable; insertion sort
with `distLe` is the same stable sort. -/
def rankFS (snap : AvailMap) (index : LocIndex) (t : ℚ × ℚ) : List Cand :=
  List.insertionSort distLe (candsOf snap index t)

theorem filter_orderedInsert_key (k : ℚ) (a : Cand) (l : List Cand) :
    (List.orderedInsert distLe a l).filter (fun x => decide (x.2.1 = k))
      = if a.2.1 = k then a :: l.filter (fun x => decide (x.2.1 = k))
        else l.filter (fun x => decide (x.2.1 = k)) := by
  induction l with
  | nil => by_cases h : a.2.1 = k <;> simp [List.orderedInsert, List.filter, h]
  | cons b t ih =>
    by_cases hab : distLe a b
    · by_cases h : a.2.1 = k <;>
        simp [List.orderedInsert, hab, List.filter_cons, h]
    · have hb : b.2.1 < a.2.1 := lt_of_not_le hab
      by_cases h : a.2.1 = k
      · have hbk : ¬ b.2.1 = k := by
          intro hk
          exact absurd (hk.trans h.symm) (ne_of_lt hb)
        simp [List.orderedInsert, hab, List.filter_cons, hbk, ih, h]
      · by_cases hbk : b.2.1 = k <;>
          simp [List.orderedInsert, hab, List.filter_cons, hbk, ih, h]

theorem filter_insertionSort_key (k : ℚ) (l : List Cand) :
    (List.insertionSort distLe l).filter (fun x => decide (x.2.1 = k))
      = l.filter (fun x => decide (x.2.1 = k)) := by
  induction l with
  | nil => rfl
  | cons a t ih =>
    by_cases h : a.2.1 = k <;>
      simp [List.insertionSort, filter_orderedInsert_key, h, ih, List.filter_cons]

theorem mem_candsOf (snap : AvailMap) (index : LocIndex) (t : ℚ × ℚ)
    (c : String) (d : ℚ) (n : Int) :
    (c, d, n) ∈ candsOf snap index t ↔
      ((c, n) ∈ snap ∧ 0 < n ∧ ∃ p, alookup index c = some p ∧ d = dist2 p t) := by
  simp only [candsOf, List.mem_filterMap]
  constructor
  · rintro ⟨⟨c0, n0⟩, hmem, hf⟩
    cases hidx : alookup index c0 with
    | none => simp [hidx] at hf
    | some p =>
      by_cases hpos : 0 < n0
      · simp only [hidx, hpos, if_true, Option.some.injEq, Prod.mk.injEq] at hf
        obtain ⟨h1, h2, h3⟩ := hf
        subst h1; subst h2; subst h3
        exact ⟨hmem, hpos, p, hidx, rfl⟩
      · simp [hidx, hpos] at hf
  · rintro ⟨hmem, hpos, p, hidx, rfl⟩
    exact ⟨(c, n), hmem, by simp [hidx, hpos]⟩

/-- Claim C4: the candidate ranker (`fast_simulation.py` lines 209-216,
`vector_simulation.py` lines 102-107) is a pure function of the snapshot,
index and target (it is a Lean function, so identical inputs give
identical output); its result is a permutation of — so contains exactly —
the snapshot entries with positive count whose city is in the location
index, each paired with its distance to the target; it is sorted by
ascending distance; and ties are broken by snapshot order: for every
distance value, the sublist of candidates at that distance is exactly the
sublist of the unsorted comprehension, in the same order (stability). -/
theorem C4_ranker (snap : AvailMap) (index : LocIndex) (t : ℚ × ℚ) :
    (rankFS snap index t).Perm (candsOf snap index t)
    ∧ (rankFS snap index t).Sorted distLe
    ∧ (∀ k : ℚ, (rankFS snap index t).filter (fun x => decide (x.2.1 = k))
        = (candsOf snap index t).filter (fun x => decide (x.2.1 = k)))
    ∧ (∀ (c : String) (d : ℚ) (n : Int), (c, d, n) ∈ rankFS snap index t ↔
        ((c, n) ∈ snap ∧ 0 < n ∧ ∃ p, alookup index c = some p ∧ d = dist2 p t)) := by
  refine ⟨List.perm_insertionSort distLe _, List.sorted_insertionSort distLe _,
    fun k => filter_insertionSort_key k _, fun c d n => ?_⟩
  rw [show rankFS snap index t = List.insertionSort distLe (candsOf snap index t) from rfl,
    List.mem_insertionSort]
  exact mem_candsOf snap index t c d n

/-- The update `available[city] -= d` (`fast_simulation.py` line 232 / `main.py` line
193 / `vector_simulation.py` line 115); the key is always present there,
where `aset` coincides with Python's in-place update. -/
def decAt (m : AvailMap) (c : String) (d : Int) : AvailMap :=
  aset m c ((alookup m c).getD 0 - d)

/-- The greedy allocation loop of `fast_simulation.py` lines 218-233 (the
same loop as `main.py` lines 187-194 and `vector_simulation.py` lines
109-116): walk the (distance-sorted) candidates; stop when `remaining <= 0`;
take `min avail_count remaining` from each candidate, where `avail_count`
is the candidate's snapshot count; emit a dispatch, subtract from the
availability dict and from `remaining`.  Returns (dispatches as
(city, amount), final remaining, final availability dict). -/
def allocFS : List Cand → Int → AvailMap → List (String × Int) × Int × AvailMap
  | [], rem, av => ([], rem, av)
  | cand :: rest, rem, av =>
    if rem ≤ 0 then ([], rem, av)
    else
      ((cand.1, min cand.2.2 rem)
          :: (allocFS rest (rem - min cand.2.2 rem) (decAt av cand.1 (min cand.2.2 rem))).1,
        (allocFS rest (rem - min cand.2.2 rem) (decAt av cand.1 (min cand.2.2 rem))).2.1,
        (allocFS rest (rem - min cand.2.2 rem) (decAt av cand.1 (min cand.2.2 rem))).2.2)

theorem allocFS_nil_of_nonpos (cands : List Cand) (rem : Int) (av : AvailMap)
    (h : rem ≤ 0) : (allocFS cands rem av).1 = [] := by
  cases cands <;> simp [allocFS, h]

theorem allocFS_exhausts :
    ∀ (cands : List Cand) (need : Int) (av : AvailMap) (i j : Nat)
      (ci : String) (di : ℚ) (ni : Int) (cj : String) (dj : Int),
      i < j → cands.get? i = some (ci, di, ni) →
      (allocFS cands need av).1.get? j = some (cj, dj) → 0 < dj →
      (allocFS cands need av).1.get? i = some (ci, ni) := by
  intro cands
  induction cands with
  | nil =>
    intro need av i j ci di ni cj dj hij hi hj hdj
    simp at hi
  | cons cand rest ih =>
    intro need av i j ci di ni cj dj hij hi hj hdj
    by_cases hneed : need ≤ 0
    · rw [allocFS_nil_of_nonpos _ _ _ hneed] at hj
      simp at hj
    · obtain ⟨j', rfl⟩ : ∃ j', j = j' + 1 := ⟨j - 1, by omega⟩
      simp only [allocFS, hneed, if_false, List.get?] at hj ⊢
      cases i with
      | zero =>
        simp only [List.get?] at hi ⊢
        obtain rfl : cand = (ci, di, ni) := by
          cases hi
          rfl
        by_cases hle : ni ≤ need
        · simp [min_eq_left hle]
        · have hmin : min ((ci, di, ni) : Cand).2.2 need = need := min_eq_right (le_of_not_le hle)
          rw [hmin] at hj
          rw [allocFS_nil_of_nonpos _ _ _ (by omega)] at hj
          simp at hj
      | succ i' =>
        simp only [List.get?] at hi ⊢
        exact ih _ _ i' j' ci di ni cj dj (by omega) hi hj hdj

/-- The location index of the spec's Scenario A/B: target `T` at the
origin, candidate `A` at distance 1, candidate `B` at distance 2
(squared distances 1 and 4). -/
def scIndex : LocIndex := [("T", (0, 0)), ("A", (1, 0)), ("B", (2, 0))]

/-- The snapshot of the spec's Scenario A/B: `A` holds 5 units, `B` holds 3. -/
def scSnap : AvailMap := [("A", 5), ("B", 3)]

theorem rank_sc : rankFS scSnap scIndex (0, 0) = [("A", 1, 5), ("B", 4, 3)] := by
  norm_num [rankFS, candsOf, scSnap, scIndex, alookup, dist2, List.insertionSort,
    List.orderedInsert, distLe]

/-- Claim C3: the sequential greedy allocator fully exhausts a nearer
candidate before taking anything from a farther one — if a positive amount
is taken at position `j` of the candidate list, then every earlier
position `i` was taken in full (its snapshot count) — and on the spec's
concrete scenarios (A at distance 1 with 5 units, B at distance 2 with 3
units): quantity 6 takes 5 from A then 1 from B with remainder 0 and
final counts A=0, B=2; quantity 10 takes 5 from A and 3 from B with
remainder 2. -/
theorem C3_greedy :
    (∀ (cands : List Cand) (need : Int) (av : AvailMap) (i j : Nat)
      (ci : String) (di : ℚ) (ni : Int) (cj : String) (dj : Int),
      i < j → cands.get? i = some (ci, di, ni) →
      (allocFS cands need av).1.get? j = some (cj, dj) → 0 < dj →
      (allocFS cands need av).1.get? i = some (ci, ni))
    ∧ allocFS (rankFS scSnap scIndex (0, 0)) 6 scSnap
        = ([("A", 5), ("B", 1)], 0, [("A", 0), ("B", 2)])
    ∧ allocFS (rankFS scSnap scIndex (0, 0)) 10 scSnap
        = ([("A", 5), ("B", 3)], 2, [("A", 0), ("B", 0)]) :=
  ⟨allocFS_exhausts, by rw [rank_sc]; decide, by rw [rank_sc]; decide⟩

theorem C3_greedy_witness :
    (allocFS (rankFS scSnap scIndex (0, 0)) 6 scSnap).1.get? 0 = some ("A", 5) :=
  C3_greedy.1 (rankFS scSnap scIndex (0, 0)) 6 scSnap 0 1 "A" 1 5 "B" 1
    (by decide) (by rw [rank_sc]; norm_num) (by rw [rank_sc]; decide) (by decide)

/-- Observable actions of the shared-cache allocation loop:
`dec s c a` is the lock-held cache decrement of `a` units of service `s`
at city `c`; `gw s c a ok` is the dispatch-order emission to the gateway
(`await dispatch(...)`), with `ok` the gateway outcome (the advisory
result of the POST, `True` for delivered). -/
inductive Event where
  | dec (s c : String) (a : Int)
  | gw (s c : String) (a : Int) (ok : Bool)
deriving DecidableEq

/-- The endpoint table of `aioHttp3.py` lines 177-183: a dispatch endpoint
exists exactly for these five service types (also the keys of
`availability_cache`, lines 15-21). -/
def serviceTypes : List String := ["Medical", "Fire", "Police", "Rescue", "Utility"]

/-- The inner allocation loop of `aioHttp3.py` lines 166-186, walking the
distance-sorted candidates: stop when `remaining <= 0`; under the lock
read the live count and, if positive, take `min current remaining` and
write back the difference (the decrement, lines 170-175); then, when a
positive amount was taken and the service has a dispatch endpoint, emit
the dispatch order (line 185, whose result `gwo ...` is ignored) and
subtract from `remaining`.  Returns (final cache, final remaining, the
ordered event trace). -/
def allocShared (gwo : String → String → Int → Bool) (s : String) :
    List (String × ℚ) → Cache → Int → Cache × Int × List Event
  | [], cache, rem => (cache, rem, [])
  | cand :: rest, cache, rem =>
    if rem ≤ 0 then (cache, rem, [])
    else if 0 < cnt cache s cand.1 then
      if s ∈ serviceTypes then
        ((allocShared gwo s rest
            (setCnt cache s cand.1 (cnt cache s cand.1 - min (cnt cache s cand.1) rem))
            (rem - min (cnt cache s cand.1) rem)).1,
          (allocShared gwo s rest
            (setCnt cache s cand.1 (cnt cache s cand.1 - min (cnt cache s cand.1) rem))
            (rem - min (cnt cache s cand.1) rem)).2.1,
          Event.dec s cand.1 (min (cnt cache s cand.1) rem)
            :: Event.gw s cand.1 (min (cnt cache s cand.1) rem)
                 (gwo s cand.1 (min (cnt cache s cand.1) rem))
            :: (allocShared gwo s rest
                 (setCnt cache s cand.1 (cnt cache s cand.1 - min (cnt cache s cand.1) rem))
                 (rem - min (cnt cache s cand.1) rem)).2.2)
      else
        ((allocShared gwo s rest
            (setCnt cache s cand.1 (cnt cache s cand.1 - min (cnt cache s cand.1) rem)) rem).1,
          (allocShared gwo s rest
            (setCnt cache s cand.1 (cnt cache s cand.1 - min (cnt cache s cand.1) rem)) rem).2.1,
          Event.dec s cand.1 (min (cnt cache s cand.1) rem)
            :: (allocShared gwo s rest
                 (setCnt cache s cand.1 (cnt cache s cand.1 - min (cnt cache s cand.1) rem))
                 rem).2.2)
    else allocShared gwo s rest cache rem

/-- A candidate of the `aioHttp3.py` ranker: (city, squared distance); the
live count is re-read by the loop, so no count is carried. -/
abbrev Cand2 := String × ℚ

/-- The candidate comprehension of `aioHttp3.py` lines 157-163. -/
def cands2Of (snap : AvailMap) (index : LocIndex) (t : ℚ × ℚ) : List Cand2 :=
  snap.filterMap fun e =>
    match alookup index e.1 with
    | some p => if (0 : Int) < e.2 then some (e.1, dist2 p t) else none
    | none => none

/-- The sort key of `candidates.sort(key=lambda candidate: candidate[1])`
(`aioHttp3.py` line 164). -/
def dist2Le (x y : Cand2) : Prop := x.2 ≤ y.2

instance : DecidableRel dist2Le := fun x y => inferInstanceAs (Decidable (x.2 ≤ y.2))

/-- The sorted candidate list of `aioHttp3.py` lines 157-164. -/
def rankShared (snap : AvailMap) (index : LocIndex) (t : ℚ × ℚ) : List Cand2 :=
  List.insertionSort dist2Le (cands2Of snap index t)

/-- One iteration of the per-request loop of `aioHttp3.py` lines 146-189;
the state is (all_success, cache, list of per-request outcomes
(serviceType, quantity, remaining)).  A request with non-positive quantity
(line 149) or a service type absent from the cache (lines 154-156) is
skipped, leaving the state — including `all_success` — unchanged and
recording no outcome. -/
def stepShared (gwo : String → String → Int → Bool) (index : LocIndex) (tp : ℚ × ℚ)
    (st : Bool × Cache × List (String × Int × Int)) (req : String × Int) :
    Bool × Cache × List (String × Int × Int) :=
  if req.2 ≤ 0 then st
  else
    match alookup st.2.1 req.1 with
    | none => st
    | some avail =>
      ((if 0 < (allocShared gwo req.1 (rankShared avail index tp) st.2.1 req.2).2.1
          then false else st.1),
        (allocShared gwo req.1 (rankShared avail index tp) st.2.1 req.2).1,
        st.2.2 ++ [(req.1, req.2,
          (allocShared gwo req.1 (rankShared avail index tp) st.2.1 req.2).2.1)])

/-- Model of `process_multi_service_emergency_shared` of `aioHttp3.py` lines
127-190 (sequential run of one call): a missing or unknown target city
returns `False` before any request is processed (lines 132-134); an empty
request list returns `False` (lines 136-138); otherwise every request is
run through the allocation loop and `all_success` is returned. -/
def processShared (gwo : String → String → Int → Bool) (index : LocIndex) (cache : Cache)
    (city : String) (reqs : List (String × Int)) : Bool × Cache × List (String × Int × Int) :=
  if city = "" then (false, cache, [])
  else
    match alookup index city with
    | none => (false, cache, [])
    | some tp =>
      if reqs = [] then (false, cache, [])
      else reqs.foldl (stepShared gwo index tp) (true, cache, [])

/-- Checks that every gateway emission in a trace immediately follows the
matching cache decrement (same service, city and amount); decrements with
no emission (no endpoint for the service) are allowed. -/
def gwAfterDec : List Event → Bool
  | [] => true
  | Event.dec s c a :: Event.gw s' c' a' _ :: t =>
      decide (s = s') && decide (c = c') && decide (a = a') && gwAfterDec t
  | Event.dec _ _ _ :: t => gwAfterDec t
  | Event.gw _ _ _ _ :: _ => false

/-- A trace that does not begin with a gateway emission. -/
def headNotGw : List Event → Bool
  | Event.gw _ _ _ _ :: _ => false
  | _ => true

theorem allocShared_rem_nonneg (gwo : String → String → Int → Bool) (s : String) :
    ∀ (cands : List Cand2) (cache : Cache) (rem : Int), 0 ≤ rem →
      0 ≤ (allocShared gwo s cands cache rem).2.1 := by
  intro cands
  induction cands with
  | nil => intro cache rem h; simpa [allocShared] using h
  | cons cand rest ih =>
    intro cache rem h
    by_cases h1 : rem ≤ 0
    · simpa [allocShared, h1] using h
    · by_cases h2 : 0 < cnt cache s cand.1
      · by_cases h3 : s ∈ serviceTypes
        · simp only [allocShared, h1, if_false, h2, if_true, h3]
          exact ih _ _ (by have := min_le_right (cnt cache s cand.1) rem; omega)
        · simp only [allocShared, h1, if_false, h2, if_true, h3]
          exact ih _ _ h
      · simp only [allocShared, h1, if_false, h2]
        exact ih _ _ h

theorem allocShared_gwo_irrel (gwo gwo2 : String → String → Int → Bool) (s : String) :
    ∀ (cands : List Cand2) (cache : Cache) (rem : Int),
      (allocShared gwo s cands cache rem).1 = (allocShared gwo2 s cands cache rem).1
      ∧ (allocShared gwo s cands cache rem).2.1 = (allocShared gwo2 s cands cache rem).2.1 := by
  intro cands
  induction cands with
  | nil => intro cache rem; simp [allocShared]
  | cons cand rest ih =>
    intro cache rem
    by_cases h1 : rem ≤ 0
    · simp [allocShared, h1]
    · by_cases h2 : 0 < cnt cache s cand.1
      · by_cases h3 : s ∈ serviceTypes <;>
          simpa only [allocShared, h1, if_false, h2, if_true, h3] using ih _ _
      · simpa only [allocShared, h1, if_false, h2] using ih _ _

theorem allocShared_trace_ordered (gwo : String → String → Int → Bool) (s : String) :
    ∀ (cands : List Cand2) (cache : Cache) (rem : Int),
      gwAfterDec (allocShared gwo s cands cache rem).2.2 = true
      ∧ headNotGw (allocShared gwo s cands cache rem).2.2 = true := by
  intro cands
  induction cands with
  | nil => intro cache rem; simp [allocShared, gwAfterDec, headNotGw]
  | cons cand rest ih =>
    intro cache rem
    by_cases h1 : rem ≤ 0
    · simp [allocShared, h1, gwAfterDec, headNotGw]
    · by_cases h2 : 0 < cnt cache s cand.1
      · by_cases h3 : s ∈ serviceTypes
        · simp only [allocShared, h1, if_false, h2, if_true, h3]
          refine ⟨?_, by simp [headNotGw]⟩
          simp [gwAfterDec, (ih _ _).1]
        · simp only [allocShared, h1, if_false, h2, if_true, h3]
          obtain ⟨iha, ihb⟩ := ih
            (setCnt cache s cand.1 (cnt cache s cand.1 - min (cnt cache s cand.1) rem)) rem
          refine ⟨?_, by simp [headNotGw]⟩
          cases htr :
              (allocShared gwo s rest
                (setCnt cache s cand.1 (cnt cache s cand.1 - min (cnt cache s cand.1) rem))
                rem).2.2 with
          | nil => simp [gwAfterDec]
          | cons e t2 =>
            cases e with
            | dec s0 c0 a0 =>
              rw [htr] at iha
              simpa [gwAfterDec] using iha
            | gw s0 c0 a0 b0 =>
              rw [htr] at ihb
              simp [headNotGw] at ihb
      · simp only [allocShared, h1, if_false, h2]
        exact ih _ _

/-- The endpoint table of `aioHttp.py` lines 166-174: dispatch endpoints
exist for Medical, Fire and Police; any other service type hits the
`else: continue`, skipping the dispatch, the decrement and the update of
`remaining`. -/
def httpServiceTypes : List String := ["Medical", "Fire", "Police"]

/-- The inner allocation loop of `aioHttp.py` lines 161-182: walk the
sorted candidates (each carrying its snapshot count `cand.2.2`); stop when
`remaining <= 0`; compute `dispatch_count = min(avail_count, remaining)`
from the snapshot count (line 165); emit the dispatch order first
(line 177, result ignored), and only then decrement the live cache entry
by `dispatch_count` (lines 180-181) and reduce `remaining`. -/
def allocHttp (gwo : String → String → Int → Bool) (s : String) :
    List Cand → Cache → Int → Cache × Int × List Event
  | [], cache, rem => (cache, rem, [])
  | cand :: rest, cache, rem =>
    if rem ≤ 0 then (cache, rem, [])
    else if s ∈ httpServiceTypes then
      ((allocHttp gwo s rest
          (httpDecrement cache s cand.1 (min cand.2.2 rem)) (rem - min cand.2.2 rem)).1,
        (allocHttp gwo s rest
          (httpDecrement cache s cand.1 (min cand.2.2 rem)) (rem - min cand.2.2 rem)).2.1,
        Event.gw s cand.1 (min cand.2.2 rem) (gwo s cand.1 (min cand.2.2 rem))
          :: Event.dec s cand.1 (min cand.2.2 rem)
          :: (allocHttp gwo s rest
               (httpDecrement cache s cand.1 (min cand.2.2 rem)) (rem - min cand.2.2 rem)).2.2)
    else allocHttp gwo s rest cache rem

theorem allocHttp_gwo_irrel (gwo gwo2 : String → String → Int → Bool) (s : String) :
    ∀ (cands : List Cand) (cache : Cache) (rem : Int),
      (allocHttp gwo s cands cache rem).1 = (allocHttp gwo2 s cands cache rem).1
      ∧ (allocHttp gwo s cands cache rem).2.1 = (allocHttp gwo2 s cands cache rem).2.1 := by
  intro cands
  induction cands with
  | nil => intro cache rem; simp [allocHttp]
  | cons cand rest ih =>
    intro cache rem
    by_cases h1 : rem ≤ 0
    · simp [allocHttp, h1]
    · by_cases h3 : s ∈ httpServiceTypes <;>
        simpa only [allocHttp, h1, if_false, h3, if_true] using ih _ _

/-- Claim C7 (amended): in the `aioHttp3.py` allocation loop, every
gateway emission occurs immediately after the matching cache decrement has
been applied (same service, city, amount), and the resulting cache and
remainder are independent of the gateway outcomes (a failed gateway call
restores nothing); in the `aioHttp.py` loop the emission instead precedes
the decrement (see the counterexample), but there too the cache and
remainder are independent of the gateway outcomes — no rollback in either
variant. -/
theorem C7_ordering :
    (∀ (gwo : String → String → Int → Bool) (s : String) (cands : List Cand2)
        (cache : Cache) (rem : Int),
      gwAfterDec (allocShared gwo s cands cache rem).2.2 = true)
    ∧ (∀ (gwo gwo2 : String → String → Int → Bool) (s : String) (cands : List Cand2)
        (cache : Cache) (rem : Int),
      (allocShared gwo s cands cache rem).1 = (allocShared gwo2 s cands cache rem).1
      ∧ (allocShared gwo s cands cache rem).2.1 = (allocShared gwo2 s cands cache rem).2.1)
    ∧ (∀ (gwo gwo2 : String → String → Int → Bool) (s : String) (cands : List Cand)
        (cache : Cache) (rem : Int),
      (allocHttp gwo s cands cache rem).1 = (allocHttp gwo2 s cands cache rem).1
      ∧ (allocHttp gwo s cands cache rem).2.1 = (allocHttp gwo2 s cands cache rem).2.1) :=
  ⟨fun gwo s cands cache rem => (allocShared_trace_ordered gwo s cands cache rem).1,
    fun gwo gwo2 s cands cache rem => allocShared_gwo_irrel gwo gwo2 s cands cache rem,
    fun gwo gwo2 s cands cache rem => allocHttp_gwo_irrel gwo gwo2 s cands cache rem⟩

/-- Claim C7 is false of the repository as stated: in `aioHttp.py` the
dispatch-order emission (line 177) happens before the cache decrement
(lines 180-181).  Concretely, for a single "Medical" candidate "X" with
snapshot count 5 and a request for 5 units, the loop's event trace is
the gateway emission followed by the decrement, which violates the
emission-only-after-decrement property. -/
theorem C7_counterexample :
    (allocHttp (fun _ _ _ => false) "Medical" [("X", 1, 5)]
        [("Medical", [("X", 5)])] 5).2.2
      = [Event.gw "Medical" "X" 5 false, Event.dec "Medical" "X" 5]
    ∧ gwAfterDec [Event.gw "Medical" "X" 5 false, Event.dec "Medical" "X" 5] = false := by
  decide

theorem stepShared_inv (gwo : String → String → Int → Bool) (index : LocIndex) (tp : ℚ × ℚ)
    (ok : Bool) (cache : Cache) (ress : List (String × Int × Int)) (req : String × Int)
    (h1 : ok = true ↔ ∀ x ∈ ress, x.2.2 = 0) (h2 : ∀ x ∈ ress, 0 ≤ x.2.2) :
    ((stepShared gwo index tp (ok, cache, ress) req).1 = true ↔
      ∀ x ∈ (stepShared gwo index tp (ok, cache, ress) req).2.2, x.2.2 = 0)
    ∧ (∀ x ∈ (stepShared gwo index tp (ok, cache, ress) req).2.2, 0 ≤ x.2.2) := by
  by_cases hq : req.2 ≤ 0
  · simp only [stepShared, if_pos hq]
    exact ⟨h1, h2⟩
  · cases halk : alookup cache req.1 with
    | none =>
      simp only [stepShared, if_neg hq, halk]
      exact ⟨h1, h2⟩
    | some avail =>
      have hrem : 0 ≤ (allocShared gwo req.1 (rankShared avail index tp) cache req.2).2.1 :=
        allocShared_rem_nonneg gwo req.1 _ cache req.2 (by omega)
      simp only [stepShared, hq, if_false, halk]
      by_cases hpos : 0 < (allocShared gwo req.1 (rankShared avail index tp) cache req.2).2.1
      · constructor
        · simp only [hpos, if_true, List.mem_append, List.mem_singleton]
          constructor
          · intro hfalse
            exact absurd hfalse (by simp)
          · intro hall
            have := hall (req.1, req.2,
              (allocShared gwo req.1 (rankShared avail index tp) cache req.2).2.1)
              (Or.inr rfl)
            simp at this
            omega
        · intro x hx
          rcases List.mem_append.mp hx with hx | hx
          · exact h2 x hx
          · rcases List.mem_singleton.mp hx with rfl
            exact hrem
      · have hz : (allocShared gwo req.1 (rankShared avail index tp) cache req.2).2.1 = 0 := by
          omega
        constructor
        · simp only [hpos, if_false, List.mem_append, List.mem_singleton]
          rw [h1]
          constructor
          · rintro hall x (hx | rfl)
            · exact hall x hx
            · simpa using hz
          · intro hall x hx
            exact hall x (Or.inl hx)
        · intro x hx
          rcases List.mem_append.mp hx with hx | hx
          · exact h2 x hx
          · rcases List.mem_singleton.mp hx with rfl
            exact hrem

theorem foldl_stepShared_inv (gwo : String → String → Int → Bool) (index : LocIndex)
    (tp : ℚ × ℚ) :
    ∀ (reqs : List (String × Int)) (ok : Bool) (cache : Cache)
      (ress : List (String × Int × Int)),
      (ok = true ↔ ∀ x ∈ ress, x.2.2 = 0) → (∀ x ∈ ress, 0 ≤ x.2.2) →
      ((reqs.foldl (stepShared gwo index tp) (ok, cache, ress)).1 = true ↔
        ∀ x ∈ (reqs.foldl (stepShared gwo index tp) (ok, cache, ress)).2.2, x.2.2 = 0)
      ∧ (∀ x ∈ (reqs.foldl (stepShared gwo index tp) (ok, cache, ress)).2.2, 0 ≤ x.2.2) := by
  intro reqs
  induction reqs with
  | nil =>
    intro ok cache ress h1 h2
    simp only [List.foldl_nil]
    exact ⟨h1, h2⟩
  | cons req rest ih =>
    intro ok cache ress h1 h2
    have h' := stepShared_inv gwo index tp ok cache ress req h1 h2
    simpa only [List.foldl_cons] using
      ih (stepShared gwo index tp (ok, cache, ress) req).1
        (stepShared gwo index tp (ok, cache, ress) req).2.1
        (stepShared gwo index tp (ok, cache, ress) req).2.2 h'.1 h'.2

/-- Claim C5 (amended): for a call with a non-empty (truthy) target city
present in the location index and a non-empty request list,
`process_multi_service_emergency_shared` (`aioHttp3.py`) reports success
iff every processed request — positive quantity, service type present in
the cache — ends the allocation loop with remaining 0.  Requests with
non-positive quantity or with a service type absent from the cache are
skipped without affecting the outcome (so an unfulfillable request for an
unknown service type does not make the call unsuccessful, see the
counterexample); a call with an empty request list, or an empty or unknown
target city, is reported unsuccessful. -/
theorem C5_success_iff (gwo : String → String → Int → Bool) (index : LocIndex)
    (cache : Cache) (city : String) (reqs : List (String × Int)) (tp : ℚ × ℚ)
    (hc : city ≠ "") (hi : alookup index city = some tp) (hr : reqs ≠ []) :
    ((processShared gwo index cache city reqs).1 = true ↔
      ∀ x ∈ (processShared gwo index cache city reqs).2.2, x.2.2 = 0) := by
  unfold processShared
  simp only [if_neg hc, hi, if_neg hr]
  exact (foldl_stepShared_inv gwo index tp reqs true cache [] (by simp) (by simp)).1

/-- The initial availability cache of `aioHttp3.py` lines 15-21: all five
service types present, each with an empty per-city mapping. -/
def cacheFive : Cache :=
  [("Medical", []), ("Fire", []), ("Police", []), ("Rescue", []), ("Utility", [])]

/-- Claim C5 is false as stated: a call whose single request names the
unknown service type "Banana" with quantity 5 is reported successful by
`aioHttp3.py` (the request is skipped by the `continue` at lines 154-156
without touching `all_success`), although nothing is dispatched for it and
its remainder is its full quantity 5 > 0; and a call with an empty request
list, for which vacuously every request's remainder is 0, is reported
unsuccessful (lines 136-138). -/
theorem C5_counterexample :
    (processShared (fun _ _ _ => true) [("T", (0, 0))] cacheFive "T" [("Banana", 5)]).1 = true
    ∧ (processShared (fun _ _ _ => true) [("T", (0, 0))] cacheFive "T" [("Banana", 5)]).2.2 = []
    ∧ (processShared (fun _ _ _ => true) [("T", (0, 0))] cacheFive "T" [("Banana", 5)]).2.1
        = cacheFive
    ∧ (processShared (fun _ _ _ => true) [("T", (0, 0))] cacheFive "T" []).1 = false := by
  decide

theorem C5_success_iff_witness :
    ((processShared (fun _ _ _ => true) [("T", (0, 0))] cacheFive "T"
        [("Medical", 5)]).1 = true ↔
      ∀ x ∈ (processShared (fun _ _ _ => true) [("T", (0, 0))] cacheFive "T"
        [("Medical", 5)]).2.2, x.2.2 = 0) :=
  C5_success_iff (fun _ _ _ => true) [("T", (0, 0))] cacheFive "T" [("Medical", 5)] (0, 0)
    (by decide) (by decide) (by decide)

/-- One iteration of the per-request loop of `fast_simulation.py` lines
190-239; state is (all_success, fetched availability per service, list of
dispatches (serviceType, sourceCity, amount)).  A request with
non-positive quantity is skipped (lines 193-195); a target city missing
from the location index is detected inside the loop and the request is
skipped (lines 198-200); an unknown service type is skipped (lines
203-206); otherwise candidates are ranked and the greedy loop runs on the
service's availability dict. -/
def stepFS (index : LocIndex) (city : String)
    (st : Bool × Cache × List (String × String × Int)) (req : String × Int) :
    Bool × Cache × List (String × String × Int) :=
  if req.2 ≤ 0 then st
  else
    match alookup index city with
    | none => st
    | some tp =>
      match alookup st.2.1 req.1 with
      | none => st
      | some snap =>
        ((if 0 < (allocFS (rankFS snap index tp) req.2 snap).2.1 then false else st.1),
          aset st.2.1 req.1 (allocFS (rankFS snap index tp) req.2 snap).2.2,
          st.2.2 ++ ((allocFS (rankFS snap index tp) req.2 snap).1).map
            (fun o => (req.1, o.1, o.2)))

/-- Model of `process_multi_service_emergency` of `fast_simulation.py` lines
163-240: a missing (empty) `city` field returns `False` (lines 168-171);
an empty request list returns `False` (lines 173-176); otherwise every
request runs through `stepFS` and `all_success` is returned.  Note the
target-city membership check happens per request inside the loop, not
before it. -/
def processCallFS (index : LocIndex) (avail : Cache) (city : String)
    (reqs : List (String × Int)) : Bool × Cache × List (String × String × Int) :=
  if city = "" then (false, avail, [])
  else if reqs = [] then (false, avail, [])
  else reqs.foldl (stepFS index city) (true, avail, [])

theorem stepFS_target_unknown (index : LocIndex) (city : String)
    (h : alookup index city = none) (st : Bool × Cache × List (String × String × Int))
    (req : String × Int) : stepFS index city st req = st := by
  by_cases hq : req.2 ≤ 0 <;> simp [stepFS, hq, h]

theorem foldl_stepFS_target_unknown (index : LocIndex) (city : String)
    (h : alookup index city = none) :
    ∀ (reqs : List (String × Int)) (st : Bool × Cache × List (String × String × Int)),
      reqs.foldl (stepFS index city) st = st
  | [], st => rfl
  | req :: rest, st => by
    rw [List.foldl_cons, stepFS_target_unknown index city h st req,
      foldl_stepFS_target_unknown index city h rest st]

/-- Claim C6 (amended): in `aioHttp3.py` (and `aioHttp.py`), a target city
that is empty or absent from the location index aborts the whole call
before any request is processed — the call returns `False` with the cache
unchanged and no outcome recorded; in `fast_simulation.py`, however, the
membership check sits inside the per-request loop, so each request is
skipped individually (still no dispatch and no decrement) and, since
`all_success` is never touched, the call is reported *successful*. -/
theorem C6_unknown_target :
    (∀ (gwo : String → String → Int → Bool) (index : LocIndex) (cache : Cache)
        (city : String) (reqs : List (String × Int)),
      alookup index city = none →
      processShared gwo index cache city reqs = (false, cache, []))
    ∧ (∀ (index : LocIndex) (avail : Cache) (city : String) (reqs : List (String × Int)),
      city ≠ "" → reqs ≠ [] → alookup index city = none →
      processCallFS index avail city reqs = (true, avail, [])) := by
  constructor
  · intro gwo index cache city reqs h
    by_cases hc : city = "" <;> simp [processShared, hc, h]
  · intro index avail city reqs hc hr h
    unfold processCallFS
    rw [if_neg hc, if_neg hr, foldl_stepFS_target_unknown index city h reqs]

/-- Claim C6 is false of the repository as stated: in
`fast_simulation.py`, a call for a target city "X" absent from the
location index, with one positive-quantity "Medical" request and a
candidate holding 5 units, is not aborted before its requests run — the
request loop runs, skips the request (no dispatch, no decrement), and the
call is reported successful (`True`), not unresolved. -/
theorem C6_counterexample :
    processCallFS [] [("Medical", [("A", 5)])] "X" [("Medical", 3)]
      = (true, [("Medical", [("A", 5)])], []) := by
  decide

theorem C6_unknown_target_witness :
    processShared (fun _ _ _ => true) [] cacheFive "X" [("Medical", 3)]
      = (false, cacheFive, [])
    ∧ processCallFS [("Y", (0, 0))] [("Medical", [("A", 5)])] "X" [("Medical", 3)]
      = (true, [("Medical", [("A", 5)])], []) :=
  ⟨C6_unknown_target.1 (fun _ _ _ => true) [] cacheFive "X" [("Medical", 3)] rfl,
    C6_unknown_target.2 [("Y", (0, 0))] [("Medical", [("A", 5)])] "X" [("Medical", 3)]
      (by decide) (by decide) (by decide)⟩

/-- Model of `process_emergency` of `main.py` lines 129-201 for a call whose count
comes from its `requests` array: the needed amount is the *sum* of the
requests' quantities (line 160); a non-positive sum returns `False`
immediately (lines 165-167) — before the target-city check (lines
171-173) and before any allocation; otherwise the single-service greedy
loop (lines 177-194) runs on the ambulance availability dict. -/
def process_emergency (index : LocIndex) (avail : AvailMap) (city : String)
    (reqs : List Int) : Bool × AvailMap × List (String × Int) :=
  if city = "" then (false, avail, [])
  else if reqs.sum ≤ 0 then (false, avail, [])
  else
    match alookup index city with
    | none => (false, avail, [])
    | some tp =>
      ((if 0 < (allocFS (rankFS avail index tp) reqs.sum avail).2.1 then false else true),
        (allocFS (rankFS avail index tp) reqs.sum avail).2.2,
        (allocFS (rankFS avail index tp) reqs.sum avail).1)

/-- Claim C8 (amended): in the multi-service processors
(`fast_simulation.py` lines 192-195, `aioHttp3.py` lines 148-150), a
request entry with non-positive quantity is skipped as a unit: the
per-request step leaves the whole state (success flag, availability,
dispatches) unchanged, and a request list containing the entry produces
exactly the run of the list without it, so processing continues with the
remaining requests and the entry is never grounds for failure.  In
`main.py`, however, quantities are summed into a single needed count and a
non-positive *sum* fails the whole call (see the counterexample). -/
theorem C8_skip :
    (∀ (index : LocIndex) (city : String)
        (st : Bool × Cache × List (String × String × Int)) (req : String × Int),
      req.2 ≤ 0 → stepFS index city st req = st)
    ∧ (∀ (gwo : String → String → Int → Bool) (index : LocIndex) (tp : ℚ × ℚ)
        (st : Bool × Cache × List (String × Int × Int)) (req : String × Int),
      req.2 ≤ 0 → stepShared gwo index tp st req = st)
    ∧ (∀ (index : LocIndex) (city : String)
        (st : Bool × Cache × List (String × String × Int)) (req : String × Int)
        (l1 l2 : List (String × Int)),
      req.2 ≤ 0 →
      (l1 ++ req :: l2).foldl (stepFS index city) st = (l1 ++ l2).foldl (stepFS index city) st) := by
  refine ⟨fun index city st req h => by simp [stepFS, h],
    fun gwo index tp st req h => by simp [stepShared, h],
    fun index city st req l1 l2 h => ?_⟩
  rw [List.foldl_append, List.foldl_append, List.foldl_cons]
  rw [show stepFS index city (l1.foldl (stepFS index city) st) req
      = l1.foldl (stepFS index city) st from by simp [stepFS, h]]

theorem rank_c8 :
    rankFS [("A", 5)] [("T", (0, 0)), ("A", (1, 0))] (0, 0) = [("A", 1, 5)] := by
  norm_num [rankFS, candsOf, alookup, dist2, List.insertionSort, List.orderedInsert]

/-- Claim C8 is false of the repository as stated: `main.py` sums the
requests' quantities, so for a call at "T" with requests of quantities 3
and -3 (availability: 5 units at "A", distance 1) the non-positive entry
drags the sum to 0 and the whole call is rejected as an error — `False`,
nothing dispatched — whereas without the non-positive entry the same call
dispatches 3 units from "A" and succeeds.  The non-positive entry is thus
not skipped: it changes the outcome and marks the call failed. -/
theorem C8_counterexample :
    process_emergency [("T", (0, 0)), ("A", (1, 0))] [("A", 5)] "T" [3, -3]
      = (false, [("A", 5)], [])
    ∧ process_emergency [("T", (0, 0)), ("A", (1, 0))] [("A", 5)] "T" [3]
      = (true, [("A", 2)], [("A", 3)]) := by
  constructor
  · decide
  · simp only [process_emergency, List.sum_cons, List.sum_nil, alookup, rank_c8]
    norm_num [allocFS, decAt, aset, alookup]
    decide

theorem C8_skip_witness :
    stepFS [("T", (0, 0))] "T" (true, [("Medical", [("A", 5)])], []) ("Medical", 0)
      = (true, [("Medical", [("A", 5)])], [])
    ∧ stepShared (fun _ _ _ => true) [("T", (0, 0))] (0, 0) (true, cacheFive, [])
        ("Medical", -2)
      = (true, cacheFive, []) :=
  ⟨C8_skip.1 [("T", (0, 0))] "T" (true, [("Medical", [("A", 5)])], []) ("Medical", 0)
      (by decide),
    C8_skip.2.1 (fun _ _ _ => true) [("T", (0, 0))] (0, 0) (true, cacheFive, [])
      ("Medical", -2) (by decide)⟩

/-- Model of `get_available` of `aioHttp3.py` lines 77-86 (same in `aioHttp.py`
lines 75-84): absent data (`call_api` returned `None` or an empty body)
or an empty collection is falsy, so the function raises `RuntimeError`
(modelled as `Except.error`); otherwise the availability dict is built
from the items (city, count). -/
def get_available (data : Option (List (String × Int))) : Except String AvailMap :=
  match data with
  | none => Except.error "Failed to retrieve available resources"
  | some [] => Except.error "Failed to retrieve available resources"
  | some items => Except.ok (items.foldl (fun m e => aset m e.1 e.2) [])

/-- One cycle of `update_availability_cache` of `aioHttp3.py` lines
106-125: the five fetches run under `asyncio.gather`, whose failure (any
fetch raising) propagates and is caught by the surrounding
`try ... except: pass`, so nothing is written; only when all five
succeed are the five per-service mappings replaced, inside a single
`async with cache_lock` block — modelled as this one atomic state
transition. -/
def update_availability_cache (cache : Cache)
    (med fire police rescue utility : Except String AvailMap) : Cache :=
  match med, fire, police, rescue, utility with
  | Except.ok m, Except.ok f, Except.ok p, Except.ok r, Except.ok u =>
      aset (aset (aset (aset (aset cache "Medical" m) "Fire" f) "Police" p) "Rescue" r)
        "Utility" u
  | _, _, _, _, _ => cache

/-- Claim C9 (amended): an absent or empty availability result makes
`get_available` raise (it does not return a zero-availability mapping);
the refresh cycle catches the error and leaves the cached mapping of every
service type unchanged — the allocator then sees the previous (stale)
counts, not zero availability — and the core does not crash (the cycle is
a total function).  -/
theorem C9_refresh_failure :
    (∃ e, get_available none = Except.error e)
    ∧ (∃ e, get_available (some []) = Except.error e)
    ∧ (∀ (cache : Cache) (e : String) (f p r u : Except String AvailMap),
      update_availability_cache cache (Except.error e) f p r u = cache)
    ∧ (∀ (cache : Cache) (d2 d3 d4 d5 : Option (List (String × Int))),
      update_availability_cache cache (get_available none) (get_available d2)
        (get_available d3) (get_available d4) (get_available d5) = cache) := by
  refine ⟨⟨_, rfl⟩, ⟨_, rfl⟩, fun cache e f p r u => ?_, fun cache d2 d3 d4 d5 => ?_⟩
  · cases f <;> cases p <;> cases r <;> cases u <;> rfl
  · show update_availability_cache cache (Except.error _) _ _ _ _ = cache
    cases get_available d2 <;> cases get_available d3 <;> cases get_available d4 <;>
      cases get_available d5 <;> rfl

/-- Claim C9 is false of the repository as stated: for absent data the
fetch raises (`Except.error`, not a zero mapping); and after a failed
cycle the cache still holds the stale count 5 for ("Medical", "X") — the
allocator therefore still finds a candidate for that service type rather
than "no candidates", i.e. the absent result is not treated as zero
availability. -/
theorem C9_counterexample :
    get_available none = Except.error "Failed to retrieve available resources"
    ∧ update_availability_cache [("Medical", [("X", 5)])] (get_available none)
        (Except.ok []) (Except.ok []) (Except.ok []) (Except.ok [])
      = [("Medical", [("X", 5)])]
    ∧ cnt (update_availability_cache [("Medical", [("X", 5)])] (get_available none)
        (Except.ok []) (Except.ok []) (Except.ok []) (Except.ok [])) "Medical" "X" = 5
    ∧ cands2Of (svc (update_availability_cache [("Medical", [("X", 5)])] (get_available none)
        (Except.ok []) (Except.ok []) (Except.ok []) (Except.ok [])) "Medical")
        [("X", (0, 0))] (0, 0) ≠ [] := by
  refine ⟨rfl, rfl, by decide, ?_⟩
  intro h
  simp [cands2Of, update_availability_cache, get_available, svc, alookup] at h

/-- Claim C10: each refresh cycle is all-or-nothing: if any per-service
fetch fails, the cycle leaves the mapping of every service type unchanged;
and when all five fetches succeed, all five per-service mappings are
replaced in the one lock-held transition the cycle is — afterwards every
fetched service maps to its new mapping and every other key of the cache
is untouched, so no state mixing pre-cycle and post-cycle mappings is ever
observable. -/
theorem C10_refresh_atomic (cache : Cache)
    (med fire police rescue utility : Except String AvailMap) :
    ((med.isOk = false ∨ fire.isOk = false ∨ police.isOk = false ∨ rescue.isOk = false
        ∨ utility.isOk = false) →
      update_availability_cache cache med fire police rescue utility = cache)
    ∧ (∀ m f p r u, med = Except.ok m → fire = Except.ok f → police = Except.ok p →
        rescue = Except.ok r → utility = Except.ok u →
        alookup (update_availability_cache cache med fire police rescue utility) "Medical"
            = some m
        ∧ alookup (update_availability_cache cache med fire police rescue utility) "Fire"
            = some f
        ∧ alookup (update_availability_cache cache med fire police rescue utility) "Police"
            = some p
        ∧ alookup (update_availability_cache cache med fire police rescue utility) "Rescue"
            = some r
        ∧ alookup (update_availability_cache cache med fire police rescue utility) "Utility"
            = some u
        ∧ ∀ s, s ∉ serviceTypes →
            alookup (update_availability_cache cache med fire police rescue utility) s
              = alookup cache s) := by
  constructor
  · intro h
    cases med <;> cases fire <;> cases police <;> cases rescue <;> cases utility <;>
      simp_all [update_availability_cache, Except.isOk, Except.toBool]
  · intro m f p r u h1 h2 h3 h4 h5
    subst h1; subst h2; subst h3; subst h4; subst h5
    have e1 : ("Medical" : String) ≠ "Fire" := by decide
    have e2 : ("Medical" : String) ≠ "Police" := by decide
    have e3 : ("Medical" : String) ≠ "Rescue" := by decide
    have e4 : ("Medical" : String) ≠ "Utility" := by decide
    have e5 : ("Fire" : String) ≠ "Police" := by decide
    have e6 : ("Fire" : String) ≠ "Rescue" := by decide
    have e7 : ("Fire" : String) ≠ "Utility" := by decide
    have e8 : ("Police" : String) ≠ "Rescue" := by decide
    have e9 : ("Police" : String) ≠ "Utility" := by decide
    have e10 : ("Rescue" : String) ≠ "Utility" := by decide
    refine ⟨?_, ?_, ?_, ?_, ?_, ?_⟩
    · rw [show update_availability_cache cache (Except.ok m) (Except.ok f) (Except.ok p)
          (Except.ok r) (Except.ok u)
        = aset (aset (aset (aset (aset cache "Medical" m) "Fire" f) "Police" p) "Rescue" r)
            "Utility" u from rfl,
        alookup_aset_ne _ _ _ _ e4, alookup_aset_ne _ _ _ _ e3,
        alookup_aset_ne _ _ _ _ e2, alookup_aset_ne _ _ _ _ e1, alookup_aset_self]
    · rw [show update_availability_cache cache (Except.ok m) (Except.ok f) (Except.ok p)
          (Except.ok r) (Except.ok u)
        = aset (aset (aset (aset (aset cache "Medical" m) "Fire" f) "Police" p) "Rescue" r)
            "Utility" u from rfl,
        alookup_aset_ne _ _ _ _ e7, alookup_aset_ne _ _ _ _ e6,
        alookup_aset_ne _ _ _ _ e5, alookup_aset_self]
    · rw [show update_availability_cache cache (Except.ok m) (Except.ok f) (Except.ok p)
          (Except.ok r) (Except.ok u)
        = aset (aset (aset (aset (aset cache "Medical" m) "Fire" f) "Police" p) "Rescue" r)
            "Utility" u from rfl,
        alookup_aset_ne _ _ _ _ e9, alookup_aset_ne _ _ _ _ e8, alookup_aset_self]
    · rw [show update_availability_cache cache (Except.ok m) (Except.ok f) (Except.ok p)
          (Except.ok r) (Except.ok u)
        = aset (aset (aset (aset (aset cache "Medical" m) "Fire" f) "Police" p) "Rescue" r)
            "Utility" u from rfl,
        alookup_aset_ne _ _ _ _ e10, alookup_aset_self]
    · rw [show update_availability_cache cache (Except.ok m) (Except.ok f) (Except.ok p)
          (Except.ok r) (Except.ok u)
        = aset (aset (aset (aset (aset cache "Medical" m) "Fire" f) "Police" p) "Rescue" r)
            "Utility" u from rfl,
        alookup_aset_self]
    · intro s hs
      simp only [serviceTypes, List.mem_cons, List.not_mem_nil, or_false, not_or] at hs
      obtain ⟨n1, n2, n3, n4, n5⟩ := hs
      rw [show update_availability_cache cache (Except.ok m) (Except.ok f) (Except.ok p)
          (Except.ok r) (Except.ok u)
        = aset (aset (aset (aset (aset cache "Medical" m) "Fire" f) "Police" p) "Rescue" r)
            "Utility" u from rfl,
        alookup_aset_ne _ _ _ _ n5, alookup_aset_ne _ _ _ _ n4,
        alookup_aset_ne _ _ _ _ n3, alookup_aset_ne _ _ _ _ n2, alookup_aset_ne _ _ _ _ n1]

theorem C10_refresh_atomic_witness :
    update_availability_cache cacheFive (Except.error "boom") (Except.ok [("A", 1)])
      (Except.ok []) (Except.ok []) (Except.ok []) = cacheFive
    ∧ alookup (update_availability_cache cacheFive (Except.ok [("A", 1)]) (Except.ok [])
        (Except.ok []) (Except.ok []) (Except.ok [])) "Medical" = some [("A", 1)] :=
  ⟨(C10_refresh_atomic cacheFive (Except.error "boom") (Except.ok [("A", 1)])
      (Except.ok []) (Except.ok []) (Except.ok [])).1 (Or.inl rfl),
    ((C10_refresh_atomic cacheFive (Except.ok [("A", 1)]) (Except.ok [])
      (Except.ok []) (Except.ok []) (Except.ok [])).2 [("A", 1)] [] [] [] []
      rfl rfl rfl rfl rfl).1⟩
